import Mathlib

/-!
Verification of the `ffmpeg-for` batch-encoding script
(`src/ffmpeg_for/ffmpeg_for.py`, `src/ffmpeg_for/util.py`).

The script is shallowly embedded: pure string/path manipulation is
translated function-by-function from the Python source; the external
world (the filesystem, the `ffprobe` duration probe, the
`ffmpeg-quality-metrics` tool's stdout, the stdlib JSON decoder and the
stdlib shell tokenizer) is a record of oracles, and the observable
side effects of a run (stdout/stderr writes, sleeps, child-process
invocations, metrics-file writes) are recorded as an event trace.
`sys.exit` and uncaught Python exceptions are modelled as an abort value
carried alongside the trace.
-/

namespace FfmpegFor

/-! ### Python string and `os.path` primitives (posixpath semantics) -/

/-- Index of the last occurrence of `c` in `l` (Python `str.rfind`,
with `none` standing for Python's `-1`). -/
def lastIdxOf (c : Char) (l : List Char) : Option Nat :=
  ((List.range l.length).filter (fun i => l.getD i ' ' == c)).getLast?

/-- Python `str.lower` restricted to ASCII, which is all the source
compares (`ALLOWED_EXT_LIST` is ASCII). -/
def pyLower (s : String) : String :=
  ⟨s.data.map Char.toLower⟩

/-- Python slicing `s[:n]`. -/
def pyTake (n : Nat) (s : String) : String :=
  ⟨s.data.take n⟩

/-- ASCII whitespace as stripped by Python `str.strip()` (the captured
tool output is ASCII JSON). -/
def isPySpace (c : Char) : Bool :=
  c == ' ' || c == '\t' || c == '\n' || c == '\x0d' || c == '\x0b' || c == '\x0c'

/-- Python `str.strip()` (whitespace at both ends). -/
def pyStrip (s : String) : String :=
  ⟨((s.data.dropWhile isPySpace).reverse.dropWhile isPySpace).reverse⟩

/-- Python `os.path.splitext` (posixpath): split off the extension at the
last dot of the last component, except that a component consisting only
of leading dots up to that dot has no extension. -/
def pySplitext (p : String) : String × String :=
  let l := p.data
  match lastIdxOf '.' l with
  | none => (p, "")
  | some dotIndex =>
    let start : Nat :=
      match lastIdxOf '/' l with
      | none => 0
      | some sepIndex => sepIndex + 1
    if start ≤ dotIndex ∧
        (List.range' start (dotIndex - start)).any (fun i => l.getD i ' ' ≠ '.') then
      (⟨l.take dotIndex⟩, ⟨l.drop dotIndex⟩)
    else
      (p, "")

/-- Python `os.path.split` (posixpath): split after the last slash, then
strip trailing slashes from the head unless the head is all slashes. -/
def pySplitPath (p : String) : String × String :=
  let l := p.data
  let i : Nat :=
    match lastIdxOf '/' l with
    | none => 0
    | some n => n + 1
  let head := l.take i
  let tail := l.drop i
  let head :=
    if head ≠ [] ∧ head.any (fun c => c ≠ '/') then
      (head.reverse.dropWhile (fun c => c == '/')).reverse
    else head
  (⟨head⟩, ⟨tail⟩)

/-- Python `os.path.dirname`. -/
def pyDirname (p : String) : String :=
  (pySplitPath p).1

/-- Python `os.path.basename`. -/
def pyBasename (p : String) : String :=
  (pySplitPath p).2

/-- Does the string start with a slash? -/
def firstIsSlash (s : String) : Bool :=
  match s.data with
  | [] => false
  | c :: _ => c == '/'

/-- Does the string end with a slash? -/
def lastIsSlash (s : String) : Bool :=
  match s.data.getLast? with
  | some c => c == '/'
  | none => false

/-- Python `os.path.join` (posixpath), two-argument form. -/
def pyJoin (a b : String) : String :=
  if firstIsSlash b then b
  else if a = "" ∨ lastIsSlash a then a ++ b
  else a ++ "/" ++ b

/-! ### JSON values, Python exceptions, observable events -/

/-- JSON values as produced by Python's `json.loads`. -/
inductive Json where
  | null
  | bool (b : Bool)
  | num (q : ℚ)
  | str (s : String)
  | arr (elems : List Json)
  | obj (entries : List (String × Json))

/-- Python dict subscripting on a decoded JSON object: with duplicate
keys `json.loads` keeps the last occurrence, so lookup is last-wins. -/
def pyDictGet (entries : List (String × Json)) (key : String) : Option Json :=
  (entries.reverse.find? (fun kv => kv.1 == key)).map (fun kv => kv.2)

/-- The Python exceptions the script can raise past its own handlers. -/
inductive PyExc where
  | keyError (key : String)
  | typeError
  | valueError (msg : String)
deriving DecidableEq

/-- A reason the process stops before the job list is done: `sys.exit`
with a code, or an uncaught exception. -/
inductive PyAbort where
  | exit (code : Nat)
  | exc (e : PyExc)
deriving DecidableEq

/-- Observable side effects of a run, in order. `out`/`err` are raw
writes to stdout/stderr (`print x` writes `x ++ "\n"`; `print(x, end="")`
writes `x`). `runCmd` is a child-process invocation with its argument
vector. `writeFileEvt` records the metrics file write with the JSON
value dumped into it. -/
inductive Event where
  | out (s : String)
  | err (s : String)
  | sleep (seconds : Nat)
  | runCmd (argv : List String)
  | writeFileEvt (name : String) (content : Json)

/-- Is the event a child-process invocation? -/
def Event.isRunCmd : Event → Bool
  | .runCmd _ => true
  | _ => false

/-- Is the event a file write? -/
def Event.isWriteFile : Event → Bool
  | .writeFileEvt _ _ => true
  | _ => false

/-- Is the event a sleep? -/
def Event.isSleep : Event → Bool
  | .sleep _ => true
  | _ => false

/-- The parsed command-line arguments (`parse_args`). `ffmpegOptions` is
`none` when `--ffmpeg-options` is omitted (argparse default). `interval`
is an `int` (argparse `type=int`, default 0). `outputExt` is `none` when
`--output-ext` is omitted. `calcMetrics` is the `--calc-metrics` flag. -/
structure Config where
  ffmpegOptions : Option String
  interval : Int
  outputExt : Option String
  calcMetrics : Bool

/-- Oracles for the world outside the script, as a snapshot: `isfile` is
`os.path.isfile`, `pathExists` is `os.path.exists`, `probe` is the float
parsed from `ffprobe`'s stdout (durations as exact rationals), `qm` is
the raw stdout of `ffmpeg-quality-metrics` given (original, converted),
`decode` is the stdlib `json.loads` (error = `JSONDecodeError` message),
and `tokenize` is `shlex.split` on an actual string. -/
structure World where
  isfile : String → Bool
  pathExists : String → Bool
  probe : String → ℚ
  qm : String → String → String
  decode : String → Except String Json
  tokenize : String → List String

/-! ### The script's functions, translated from `ffmpeg_for.py` -/

/-- Definition `ALLOWED_EXT_LIST` (line 13). -/
def ALLOWED_EXT_LIST : List String :=
  [".avi", ".flv", ".m4v", ".mkv", ".mov", ".mp4", ".webm"]

/-- Function `is_valid_video_file` (lines 30-32):
`ext.lower() in ALLOWED_EXT_LIST and path.isfile(video_path)`. -/
def is_valid_video_file (isfile : String → Bool) (video_path : String) : Bool :=
  decide (pyLower (pySplitext video_path).2 ∈ ALLOWED_EXT_LIST) && isfile video_path

/-- The candidate output path `get_output_path` builds on loop iteration
`count` (lines 42-49): `dirname/output-<basename_without_ext[:64]>`,
then `-<count>` when `count > 1`, then the extension — the override when
it is truthy (a non-`None`, non-empty string), else the input's own. -/
def outputCandidate (input_file_path : String) (output_ext : Option String)
    (count : Nat) : String :=
  let dirname := pyDirname input_file_path
  let basename := pyBasename input_file_path
  let basename_without_ext := (pySplitext basename).1
  let ext := (pySplitext basename).2
  let base := pyJoin dirname ("output-" ++ pyTake 64 basename_without_ext)
  let base := if count > 1 then base ++ "-" ++ toString count else base
  base ++
    (match output_ext with
     | some s => if s = "" then ext else s
     | none => ext)

/-- The `while True` loop of `get_output_path` (lines 40-57), with the
ascending `count` paired with descending fuel (`count + fuel = 101`
throughout a run started at `count = 1`, `fuel = 100`): Python checks
candidates `count = 1, 2, …` and exits once `count` would exceed 100,
i.e. after 100 existing candidates. The error value records the printed
message and the `sys.exit` code. -/
def getOutputLoop (pathExists : String → Bool) (input_file_path : String)
    (output_ext : Option String) : Nat → Nat → Except (String × Nat) String
  | _, 0 => Except.error ("Too many files with the same name", 1)
  | count, fuel + 1 =>
    let c := outputCandidate input_file_path output_ext count
    if pathExists c = false then Except.ok c
    else getOutputLoop pathExists input_file_path output_ext (count + 1) fuel

/-- Function `get_output_path` (lines 35-57). -/
def get_output_path (pathExists : String → Bool) (input_file_path : String)
    (output_ext : Option String) : Except (String × Nat) String :=
  getOutputLoop pathExists input_file_path output_ext 1 100

/-- Function `run_ffmpeg` (lines 60-70). Here `shlex_split` is the stdlib
`shlex.split`; on Python ≥ 3.12 (required by the nested-quote f-string
on line 139) it raises `ValueError("s argument must not be None")` when
its argument is `None`, before any process is started. Tokenization of
an actual string is the abstract `tokenize` oracle. On success the one
event is the synchronous `ffmpeg` invocation. -/
def run_ffmpeg (tokenize : String → List String)
    (input_filename output_filename : String) (options : Option String) :
    Except PyExc (List Event) :=
  match options with
  | none => Except.error (PyExc.valueError "s argument must not be None")
  | some s =>
      Except.ok [Event.runCmd (["ffmpeg", "-i", input_filename] ++ tokenize s
        ++ [output_filename])]

/-- Function `run_ffmpeg_quality_metrics` (lines 73-82): invoke the tool with
`(converted, original)` on its command line and return its stripped
captured stdout. -/
def run_ffmpeg_quality_metrics (qm : String → String → String)
    (original converted : String) : Event × String :=
  (Event.runCmd ["ffmpeg-quality-metrics", converted, original],
   pyStrip (qm original converted))

/-- Function `get_video_duration` (lines 85-103): the float printed by `ffprobe`,
abstracted as the `probe` oracle (durations as exact rationals). -/
def get_video_duration (probe : String → ℚ) (video_path : String) : ℚ :=
  probe video_path

/-- Python `abs` on the rational duration model (written out as a
conditional so that it evaluates). -/
def pyAbs (q : ℚ) : ℚ :=
  if q < 0 then -q else q

/-- Function `is_same_video_duration` (lines 106-107). The Python literal `0.05`
is modelled as the exact rational `5/100`; the claims' sample durations
are far enough from the tolerance that float rounding cannot change any
comparison below. -/
def is_same_video_duration (probe : String → ℚ) (original converted : String) :
    Bool :=
  decide (pyAbs (get_video_duration probe original
    - get_video_duration probe converted) < 5 / 100)

/-- Function `write_metrics_global` (lines 110-122). Only `json.JSONDecodeError`
is caught (printing a diagnostic to stderr and returning); a decoded
document that is a dict without a `"global"` key raises `KeyError`, and
a decoded non-dict document raises `TypeError` on the string subscript —
both uncaught, modelled as the error case. -/
def write_metrics_global (decode : String → Except String Json)
    (metrics output_filename : String) : Except PyExc (List Event) :=
  let metrics_filename := (pySplitext output_filename).1 ++ "-metrics.txt"
  match decode metrics with
  | Except.error e =>
      Except.ok [Event.err ("Failed to write metrics file.\nFile: "
        ++ metrics_filename ++ "\nError: " ++ e ++ "\n")]
  | Except.ok doc =>
      match doc with
      | Json.obj entries =>
          match pyDictGet entries "global" with
          | some v => Except.ok [Event.writeFileEvt metrics_filename v]
          | none => Except.error (PyExc.keyError "global")
      | _ => Except.error PyExc.typeError

/-- The message built by `print_progress` (lines 125-129). Arguments are
`Int` to match Python integer arithmetic exactly. -/
def progressMessage (current total error : Int) : String :=
  "\n" ++ toString (current - error) ++ " out of " ++ toString (total - error)
    ++ " files are encoded."
    ++ (if error ≠ 0 then
          " (" ++ toString error ++ " file" ++ (if error ≠ 1 then "s" else "")
            ++ " failed)"
        else "")

/-- Function `print_progress` (lines 125-129) as its event trace. -/
def print_progress (current total error : Int) : List Event :=
  [Event.out (progressMessage current total error ++ "\n")]

/-- The per-second countdown line (line 138-140), `end=""` so no
newline; plural "seconds" except exactly at 1. -/
def waitMessage (counter : Nat) : String :=
  "\rWaiting " ++ toString counter ++ " second"
    ++ (if counter ≠ 1 then "s" else "") ++ "... "

/-- Function `countdown_with_sleep` (lines 132-143) as its event trace: nothing
at all unless `0 < interval ≤ 3600`; otherwise a blank line, then for
`counter = interval, …, 1` the overwritten waiting line and a one-second
sleep, then a closing blank line. -/
def countdown_with_sleep (interval : Int) : List Event :=
  if 0 < interval ∧ interval ≤ 3600 then
    [Event.out "\n"]
      ++ ((List.range' 1 interval.toNat).reverse.flatMap fun counter =>
            [Event.out (waitMessage counter), Event.sleep 1])
      ++ [Event.out "\n"]
  else []

/-- The `--calc-metrics` block of `main` (lines 164-171): when the flag
is set and durations match, a 10-second countdown, the "Calculating…"
line, the metrics-tool invocation, then `write_metrics_global`; else
nothing. The second component is an uncaught exception escaping the
block, if any. -/
def metricsPhase (w : World) (calcMetrics : Bool)
    (input_file_path output_file_path : String) : List Event × Option PyExc :=
  if calcMetrics && is_same_video_duration w.probe input_file_path output_file_path
  then
    let qmRun := run_ffmpeg_quality_metrics w.qm input_file_path output_file_path
    let pre := countdown_with_sleep 10
      ++ [Event.out ("Calculating quality metrics for " ++ output_file_path
            ++ "...\n")]
      ++ [qmRun.1]
    match write_metrics_global w.decode qmRun.2 output_file_path with
    | Except.ok evs => (pre ++ evs, none)
    | Except.error e => (pre, some e)
  else ([], none)

/-- The outcome of one loop iteration of `main` (or of a whole run):
the events it emitted, the error count afterwards, and whether the
process aborted (`sys.exit` or an uncaught exception). -/
structure StepResult where
  events : List Event
  errorCount : Nat
  abort : Option PyAbort

/-- One iteration of the `for` loop of `main` (lines 152-173) on file
`p` with 1-based index `currentCount`: invalid files print a notice,
bump the error count and `continue` (skipping `print_progress`); valid
files wait (except the first), build the output path (its failure prints
and exits 1), run ffmpeg (`None` options raise), run the metrics block,
and finally print progress. -/
def processOne (cfg : Config) (w : World) (currentCount totalFiles : Nat)
    (p : String) (errorCount : Nat) : StepResult :=
  if is_valid_video_file w.isfile p = false then
    { events := [Event.out ("File " ++ p ++ " is not a valid video file path.\n")],
      errorCount := errorCount + 1, abort := none }
  else
    let waitEvents :=
      if currentCount ≠ 1 then countdown_with_sleep cfg.interval else []
    match get_output_path w.pathExists p cfg.outputExt with
    | Except.error me =>
        { events := waitEvents ++ [Event.out (me.1 ++ "\n")],
          errorCount := errorCount, abort := some (PyAbort.exit me.2) }
    | Except.ok output_file_path =>
        match run_ffmpeg w.tokenize p output_file_path cfg.ffmpegOptions with
        | Except.error e =>
            { events := waitEvents, errorCount := errorCount,
              abort := some (PyAbort.exc e) }
        | Except.ok encodeEvents =>
            let m := metricsPhase w cfg.calcMetrics p output_file_path
            match m.2 with
            | some e =>
                { events := waitEvents ++ encodeEvents ++ m.1,
                  errorCount := errorCount, abort := some (PyAbort.exc e) }
            | none =>
                { events := waitEvents ++ encodeEvents ++ m.1
                    ++ print_progress (currentCount : Int) (totalFiles : Int)
                         (errorCount : Int),
                  errorCount := errorCount, abort := none }

/-- The `for` loop of `main` over the remaining job list, stopping at
the first abort. -/
def mainLoop (cfg : Config) (w : World) (totalFiles : Nat) :
    Nat → Nat → List String → StepResult
  | _, errorCount, [] => { events := [], errorCount := errorCount, abort := none }
  | currentCount, errorCount, p :: rest =>
    let r := processOne cfg w currentCount totalFiles p errorCount
    match r.abort with
    | some a => { events := r.events, errorCount := r.errorCount, abort := some a }
    | none =>
        let r2 := mainLoop cfg w totalFiles (currentCount + 1) r.errorCount rest
        { events := r.events ++ r2.events, errorCount := r2.errorCount,
          abort := r2.abort }

/-- Function `main` (lines 146-173): iterate over the job list with 1-based
enumeration, starting with zero errors. (The
`handle_keyboard_interrupt` decorator only concerns the interactive
interrupt signal, outside this embedding.) -/
def main (cfg : Config) (w : World) (input_file_paths : List String) :
    StepResult :=
  mainLoop cfg w input_file_paths.length 1 0 input_file_paths

/-! ### Loop lemmas for `get_output_path` -/

/-- If the candidate loop returns a path, it is the first free candidate
in the scanned window. -/
theorem getOutputLoop_ok (ex : String → Bool) (p : String) (oe : Option String) :
    ∀ (fuel count : Nat) (out : String),
      getOutputLoop ex p oe count fuel = Except.ok out →
      ∃ k, count ≤ k ∧ k < count + fuel ∧ out = outputCandidate p oe k ∧
        ex out = false ∧
        ∀ j, count ≤ j → j < k → ex (outputCandidate p oe j) = true := by
  intro fuel
  induction fuel with
  | zero =>
    intro count out h
    simp [getOutputLoop] at h
  | succ n ih =>
    intro count out h
    rw [getOutputLoop] at h
    by_cases hex : ex (outputCandidate p oe count) = false
    · rw [if_pos hex] at h
      obtain rfl : outputCandidate p oe count = out := by
        simpa using h
      refine ⟨count, le_refl _, by omega, rfl, hex, ?_⟩
      intro j hj1 hj2
      omega
    · rw [if_neg hex] at h
      obtain ⟨k, hk1, hk2, hk3, hk4, hk5⟩ := ih (count + 1) out h
      refine ⟨k, by omega, by omega, hk3, hk4, ?_⟩
      intro j hj1 hj2
      rcases Nat.eq_or_lt_of_le hj1 with rfl | hlt
      · simpa using hex
      · exact hk5 j (by omega) hj2

/-- If every candidate in the scanned window exists, the loop reaches
the `sys.exit(1)` branch. -/
theorem getOutputLoop_exhaust (ex : String → Bool) (p : String)
    (oe : Option String) :
    ∀ (fuel count : Nat),
      (∀ k, count ≤ k → k < count + fuel → ex (outputCandidate p oe k) = true) →
      getOutputLoop ex p oe count fuel
        = Except.error ("Too many files with the same name", 1) := by
  intro fuel
  induction fuel with
  | zero =>
    intro count _
    rw [getOutputLoop]
  | succ n ih =>
    intro count h
    rw [getOutputLoop]
    have hc : ex (outputCandidate p oe count) = true :=
      h count (le_refl _) (by omega)
    rw [if_neg (by simp [hc])]
    exact ih (count + 1) (fun k hk1 hk2 => h k (by omega) (by omega))

/- Core marks rational arithmetic irreducible in favour of its C
implementations; re-allow unfolding so that concrete duration
comparisons evaluate by `decide` (the kernel re-checks these
reductions in full either way). -/
attribute [local semireducible] Rat.sub Rat.mul Rat.inv

/-! ### Claim-side definitions for C2 (modelled from the claim's words,
not from the source, to compare against the code's behavior) -/

/-- Modelled from the claim's words: the extension the claim says the
output takes — `e` whenever `e` is given, the input's own otherwise. -/
def claimedExtensionChoice (output_ext : Option String) (ext : String) : String :=
  match output_ext with
  | some e => e
  | none => ext

/-- Modelled from the claim's words: the unsuffixed first candidate
name, `output-` plus the first 64 characters of the basename without
its extension, in the input's directory, with the claimed extension. -/
def claimedFirstCandidate (p : String) (output_ext : Option String) : String :=
  pyJoin (pyDirname p) ("output-" ++ pyTake 64 (pySplitext (pyBasename p)).1)
    ++ claimedExtensionChoice output_ext (pySplitext (pyBasename p)).2

/-- The claim instantiated on an empty directory: nothing exists, so
the claim forces the returned path to be the unsuffixed candidate with
the claimed extension choice. -/
def C2ClaimOnEmptyDir (p : String) (e : Option String) : Prop :=
  ∀ out, get_output_path (fun _ => false) p e = Except.ok out →
    out = claimedFirstCandidate p e

/-! ### C1 -/

/-- C1: `is_valid_video_file p` is true iff the lowercased extension of
`p` is in the fixed allow-list (which contains `.m4v`) and `p` is a
regular file; any extension outside the list makes it false regardless
of existence, and an existing regular file with extension `.MP4` is
valid. -/
theorem C1_is_valid_video_file (isfile : String → Bool) (p : String) :
    (is_valid_video_file isfile p = true ↔
      pyLower (pySplitext p).2 ∈ ALLOWED_EXT_LIST ∧ isfile p = true)
    ∧ (pyLower (pySplitext p).2 ∉ ALLOWED_EXT_LIST →
        is_valid_video_file isfile p = false)
    ∧ ((pySplitext p).2 = ".MP4" → isfile p = true →
        is_valid_video_file isfile p = true) := by
  refine ⟨?_, ?_, ?_⟩
  · simp [is_valid_video_file]
  · intro h
    simp [is_valid_video_file, h]
  · intro hext hf
    rw [is_valid_video_file, hext, hf]
    decide

/-- C1 witness: an existing `.MP4` file is accepted; a `.txt` path is
rejected even though it exists. -/
theorem C1_is_valid_video_file_witness :
    is_valid_video_file (fun q => q == "clip.MP4") "clip.MP4" = true :=
  (C1_is_valid_video_file (fun q => q == "clip.MP4") "clip.MP4").2.2
    (by decide) (by decide)

/-! ### C2 -/

/-- C2 counterexample: with the forced extension given as the empty
string, the claim says the output takes that given extension, so on an
empty directory `get_output_path "/d/clip.mp4" (some "")` would have to
return `"/d/output-clip"`; the code's truthiness test `if output_ext:`
instead falls back to the input's `.mp4`. -/
theorem C2_counterexample : ¬ C2ClaimOnEmptyDir "/d/clip.mp4" (some "") := by
  intro h
  have h1 := h "/d/output-clip.mp4" rfl
  exact absurd h1 (by decide)

/-- C2 (amended): when `get_output_path` returns, the result is the
first candidate, in the order unsuffixed, `-2`, `-3`, …, `-100`, that
does not exist — each candidate being `output-` plus the first 64
characters of the input's basename without extension, in the input's
directory, with extension `e` when `e` is given *and nonempty* and the
input's original extension otherwise (`outputCandidate`); in
particular the two sample calls of the claim hold. -/
theorem C2_get_output_path (ex : String → Bool) (p : String) (e : Option String) :
    (∀ out, get_output_path ex p e = Except.ok out →
      ∃ k, 1 ≤ k ∧ k ≤ 100 ∧ out = outputCandidate p e k ∧ ex out = false ∧
        ∀ j, 1 ≤ j → j < k → ex (outputCandidate p e j) = true)
    ∧ get_output_path (fun _ => false) "/d/clip.mp4" none
        = Except.ok "/d/output-clip.mp4"
    ∧ get_output_path (fun q => q == "/d/output-clip.mp4") "/d/clip.mp4" none
        = Except.ok "/d/output-clip-2.mp4" := by
  refine ⟨?_, rfl, rfl⟩
  intro out h
  obtain ⟨k, hk1, hk2, hk3, hk4, hk5⟩ := getOutputLoop_ok ex p e 100 1 out h
  exact ⟨k, hk1, by omega, hk3, hk4, hk5⟩

/-- C2 witness: the second sample call, through the theorem. -/
theorem C2_get_output_path_witness :
    get_output_path (fun q => q == "/d/output-clip.mp4") "/d/clip.mp4" none
      = Except.ok "/d/output-clip-2.mp4" :=
  (C2_get_output_path (fun q => q == "/d/output-clip.mp4") "/d/clip.mp4" none).2.2

/-! ### C3 -/

/-- C3: when the unsuffixed candidate and the `-2` … `-100` candidates
(100 names) all exist, `get_output_path` does not return a path: it
reaches `sys.exit(1)` after printing its message, modelled as the
error value carrying the printed text and the exit code 1. -/
theorem C3_exhaustion (ex : String → Bool) (p : String) (e : Option String)
    (h : ∀ k, 1 ≤ k → k ≤ 100 → ex (outputCandidate p e k) = true) :
    get_output_path ex p e
      = Except.error ("Too many files with the same name", 1) := by
  exact getOutputLoop_exhaust ex p e 100 1 (fun k hk1 hk2 => h k hk1 (by omega))

/-- C3 witness: on a filesystem where every path exists, the call
exits. -/
theorem C3_exhaustion_witness :
    get_output_path (fun _ => true) "/d/clip.mp4" none
      = Except.error ("Too many files with the same name", 1) :=
  C3_exhaustion (fun _ => true) "/d/clip.mp4" none (fun _ _ _ => rfl)

/-! ### C5 -/

/-- C5: `is_same_video_duration` is true iff the probed durations are
within the 0.05-second tolerance (strictly); 10.00 vs 10.04 passes,
10.00 vs 10.06 fails. -/
theorem C5_is_same_video_duration :
    (∀ (probe : String → ℚ) (o c : String),
        is_same_video_duration probe o c = true ↔
          |probe o - probe c| < 5 / 100)
    ∧ is_same_video_duration (fun p => if p = "a" then 10 else 1004 / 100) "a" "b"
        = true
    ∧ is_same_video_duration (fun p => if p = "a" then 10 else 1006 / 100) "a" "b"
        = false := by
  have habs : ∀ q : ℚ, pyAbs q = |q| := by
    intro q
    rw [pyAbs]
    rcases lt_or_le q 0 with hq | hq
    · rw [if_pos hq, abs_of_neg hq]
    · rw [if_neg (not_lt.mpr hq), abs_of_nonneg hq]
  refine ⟨?_, by decide, by decide⟩
  intro probe o c
  rw [is_same_video_duration, get_video_duration, get_video_duration, habs,
    decide_eq_true_eq]

/-! ### Shared concrete configurations and worlds for closed instances -/

/-- A run configuration with encoder options given, no interval, no
extension override and metrics off. -/
def demoCfg : Config :=
  { ffmpegOptions := some "-c copy", interval := 0, outputExt := none,
    calcMetrics := false }

/-- Like `demoCfg` but with `--calc-metrics` set. -/
def demoCfgMetrics : Config :=
  { ffmpegOptions := some "-c copy", interval := 0, outputExt := none,
    calcMetrics := true }

/-- A world where every path is a regular file, no output candidate
exists yet, probes disagree (10 vs 12 seconds), and the metrics tool's
output does not parse. -/
def demoWorldMismatch : World :=
  { isfile := fun _ => true, pathExists := fun _ => false,
    probe := fun q => if q = "/d/clip.mp4" then 10 else 12,
    qm := fun _ _ => "not json",
    decode := fun _ => Except.error "Expecting value: line 1 column 1 (char 0)",
    tokenize := fun s => [s] }

/-- A world where probes agree and the metrics tool returns a JSON
object with no "global" key. -/
def demoWorldNoGlobal : World :=
  { isfile := fun _ => true, pathExists := fun _ => false,
    probe := fun _ => 10,
    qm := fun _ _ => "not parsed",
    decode := fun _ => Except.ok (Json.obj [("psnr", Json.num 42)]),
    tokenize := fun s => [s] }

/-- The countdown before metrics is never empty. -/
theorem countdown_ten_ne_nil : countdown_with_sleep 10 ≠ [] := by
  intro h
  have hlen : (countdown_with_sleep 10).length = 22 := rfl
  rw [h] at hlen
  simp at hlen

/-! ### C4 -/

/-- C4: for a file that passes validation and whose output path and
encoder invocation succeed, the metrics block (10-second grace
countdown, "Calculating…" line, metrics-tool invocation, metrics-file
write) runs iff `--calc-metrics` is set and the two probed durations
match within tolerance; when the flag is set but durations diverge, the
block contributes no events at all (silent skip), the error count is
unchanged and the run does not abort. -/
theorem C4_metrics_gating (cfg : Config) (w : World) (cc tf ec : Nat)
    (p out : String) (s : String)
    (hvalid : is_valid_video_file w.isfile p = true)
    (hout : get_output_path w.pathExists p cfg.outputExt = Except.ok out)
    (hopts : cfg.ffmpegOptions = some s) :
    ((metricsPhase w cfg.calcMetrics p out).1 ≠ [] ↔
      cfg.calcMetrics = true ∧ is_same_video_duration w.probe p out = true)
    ∧ (cfg.calcMetrics = true → is_same_video_duration w.probe p out = true →
        ∃ rest, (metricsPhase w cfg.calcMetrics p out).1 =
          countdown_with_sleep 10
            ++ [Event.out ("Calculating quality metrics for " ++ out ++ "...\n")]
            ++ rest)
    ∧ (cfg.calcMetrics = true → is_same_video_duration w.probe p out = false →
        metricsPhase w cfg.calcMetrics p out = ([], none)
        ∧ (processOne cfg w cc tf p ec).errorCount = ec
        ∧ (processOne cfg w cc tf p ec).abort = none) := by
  refine ⟨?_, ?_, ?_⟩
  · by_cases hc : (cfg.calcMetrics && is_same_video_duration w.probe p out) = true
    · constructor
      · intro _
        simpa using hc
      · intro _
        rw [metricsPhase, if_pos hc]
        rcases hw : write_metrics_global w.decode
            (run_ffmpeg_quality_metrics w.qm p out).2 out with e | evs <;>
          simp [hw]
    · rw [metricsPhase, if_neg hc]
      constructor
      · intro habs
        exact absurd rfl habs
      · intro hand
        refine absurd ?_ hc
        rw [hand.1, hand.2]
        rfl
  · intro h1 h2
    have hc : (cfg.calcMetrics && is_same_video_duration w.probe p out) = true := by
      rw [h1, h2]; rfl
    rw [metricsPhase, if_pos hc]
    rcases hw : write_metrics_global w.decode
        (run_ffmpeg_quality_metrics w.qm p out).2 out with e | evs
    · exact ⟨[(run_ffmpeg_quality_metrics w.qm p out).1], by simp [hw]⟩
    · exact ⟨[(run_ffmpeg_quality_metrics w.qm p out).1] ++ evs, by simp [hw]⟩
  · intro h1 h2
    have hc : (cfg.calcMetrics && is_same_video_duration w.probe p out) = false := by
      rw [h2]; simp
    have hm : metricsPhase w cfg.calcMetrics p out = ([], none) := by
      rw [metricsPhase, if_neg (by rw [hc]; simp)]
    refine ⟨hm, ?_, ?_⟩ <;>
      rw [processOne, if_neg (by rw [hvalid]; simp), hout] <;>
      simp [hopts, run_ffmpeg, hm]

/-- C4 witness: with metrics requested but probed durations 10 vs 12,
the block is skipped with no error and no abort. -/
theorem C4_metrics_gating_witness :
    metricsPhase demoWorldMismatch demoCfgMetrics.calcMetrics "/d/clip.mp4"
        "/d/output-clip.mp4" = ([], none)
    ∧ (processOne demoCfgMetrics demoWorldMismatch 1 1 "/d/clip.mp4" 0).errorCount
        = 0
    ∧ (processOne demoCfgMetrics demoWorldMismatch 1 1 "/d/clip.mp4" 0).abort
        = none :=
  (C4_metrics_gating demoCfgMetrics demoWorldMismatch 1 1 0 "/d/clip.mp4"
    "/d/output-clip.mp4" "-c copy" (by decide) rfl rfl).2.2 rfl (by decide)

/-! ### C6 -/

/-- C6: when the captured metrics output does not decode as JSON,
`write_metrics_global` returns normally (no exception, so the run
continues), emits exactly one stderr diagnostic naming the metrics file
path and the parse error, and writes no file. -/
theorem C6_metrics_parse_failure (decode : String → Except String Json)
    (metrics out e : String) (h : decode metrics = Except.error e) :
    write_metrics_global decode metrics out =
      Except.ok [Event.err ("Failed to write metrics file.\nFile: "
        ++ ((pySplitext out).1 ++ "-metrics.txt") ++ "\nError: " ++ e ++ "\n")]
    ∧ ∀ evs, write_metrics_global decode metrics out = Except.ok evs →
        ∀ ev ∈ evs, Event.isWriteFile ev = false := by
  have h1 : write_metrics_global decode metrics out =
      Except.ok [Event.err ("Failed to write metrics file.\nFile: "
        ++ ((pySplitext out).1 ++ "-metrics.txt") ++ "\nError: " ++ e ++ "\n")] := by
    rw [write_metrics_global, h]
  refine ⟨h1, ?_⟩
  intro evs hevs ev hev
  rw [h1] at hevs
  obtain rfl : _ = evs := by
    injection hevs
  rw [List.mem_singleton] at hev
  rw [hev]
  rfl

/-- C6 witness: a concrete failing decode produces exactly the
diagnostic event. -/
theorem C6_metrics_parse_failure_witness :
    write_metrics_global (fun _ => Except.error "Expecting value: line 1 column 1 (char 0)")
        "not json" "/d/output-clip.mp4" =
      Except.ok [Event.err ("Failed to write metrics file.\nFile: "
        ++ ((pySplitext "/d/output-clip.mp4").1 ++ "-metrics.txt")
        ++ "\nError: " ++ "Expecting value: line 1 column 1 (char 0)" ++ "\n")] :=
  (C6_metrics_parse_failure
    (fun _ => Except.error "Expecting value: line 1 column 1 (char 0)")
    "not json" "/d/output-clip.mp4" "Expecting value: line 1 column 1 (char 0)"
    rfl).1

/-! ### C9 -/

/-- C9: when the metrics tool's captured output decodes as a JSON
object with no top-level "global" key, `write_metrics_global` raises
`KeyError` (only JSON parse errors are caught), the iteration aborts
with that uncaught exception, and `main` stops there: the remaining job
list contributes no events. -/
theorem C9_missing_global_key (cfg : Config) (w : World) (cc tf ec : Nat)
    (p out s : String) (entries : List (String × Json))
    (hvalid : is_valid_video_file w.isfile p = true)
    (hout : get_output_path w.pathExists p cfg.outputExt = Except.ok out)
    (hopts : cfg.ffmpegOptions = some s)
    (hcalc : cfg.calcMetrics = true)
    (hdur : is_same_video_duration w.probe p out = true)
    (hdec : w.decode (pyStrip (w.qm p out)) = Except.ok (Json.obj entries))
    (hglob : pyDictGet entries "global" = none) :
    write_metrics_global w.decode (pyStrip (w.qm p out)) out
        = Except.error (PyExc.keyError "global")
    ∧ (processOne cfg w cc tf p ec).abort
        = some (PyAbort.exc (PyExc.keyError "global"))
    ∧ ∀ rest, (mainLoop cfg w tf cc ec (p :: rest)).abort
          = some (PyAbort.exc (PyExc.keyError "global"))
        ∧ (mainLoop cfg w tf cc ec (p :: rest)).events
          = (processOne cfg w cc tf p ec).events := by
  have hw : write_metrics_global w.decode (pyStrip (w.qm p out)) out
      = Except.error (PyExc.keyError "global") := by
    simp only [write_metrics_global, hdec, hglob]
  have hc : (cfg.calcMetrics && is_same_video_duration w.probe p out) = true := by
    rw [hcalc, hdur]
    rfl
  have hm : (metricsPhase w cfg.calcMetrics p out).2
      = some (PyExc.keyError "global") := by
    simp only [metricsPhase, if_pos hc, run_ffmpeg_quality_metrics, hw]
  have hp : (processOne cfg w cc tf p ec).abort
      = some (PyAbort.exc (PyExc.keyError "global")) := by
    rw [processOne, if_neg (by rw [hvalid]; simp), hout]
    simp only [hopts, run_ffmpeg]
    rcases hm2 : metricsPhase w cfg.calcMetrics p out with ⟨evs, oe⟩
    rw [hm2] at hm
    simp only at hm
    rw [hm]
  refine ⟨hw, hp, ?_⟩
  intro rest
  constructor <;> rw [mainLoop] <;> rw [hp]

/-- C9 witness: a concrete world whose metrics JSON is an object
without "global" aborts the two-file run after the first file. -/
theorem C9_missing_global_key_witness :
    (mainLoop demoCfgMetrics demoWorldNoGlobal 2 1 0 ["/d/clip.mp4", "/d/b.mp4"]).abort
        = some (PyAbort.exc (PyExc.keyError "global"))
    ∧ (mainLoop demoCfgMetrics demoWorldNoGlobal 2 1 0 ["/d/clip.mp4", "/d/b.mp4"]).events
        = (processOne demoCfgMetrics demoWorldNoGlobal 1 2 "/d/clip.mp4" 0).events :=
  (C9_missing_global_key demoCfgMetrics demoWorldNoGlobal 1 2 0 "/d/clip.mp4"
    "/d/output-clip.mp4" "-c copy" [("psnr", Json.num 42)]
    (by decide) rfl rfl rfl (by decide) rfl rfl).2.2 ["/d/b.mp4"]

/-- Every event of the interval countdown is a console write or a
sleep; in particular none is a child-process invocation. -/
theorem countdown_no_runCmd (i : Int) :
    ∀ ev ∈ countdown_with_sleep i, Event.isRunCmd ev = false := by
  intro ev hev
  rw [countdown_with_sleep] at hev
  by_cases hc : 0 < i ∧ i ≤ 3600
  · rw [if_pos hc] at hev
    simp only [List.mem_append, List.mem_flatMap, List.mem_singleton,
      List.mem_cons, List.not_mem_nil, or_false] at hev
    rcases hev with (h | ⟨c, _, h | h⟩) | h <;> rw [h] <;> rfl
  · rw [if_neg hc] at hev
    simp at hev

/-! ### C10 -/

/-- C10: with `--ffmpeg-options` omitted (`None`), `shlex.split`
raises before any child process is started, so a run that reaches a
valid input file aborts with that exception; no encoder process is
ever invoked. -/
theorem C10_none_ffmpeg_options (cfg : Config) (w : World) (cc tf ec : Nat)
    (p out : String)
    (hopts : cfg.ffmpegOptions = none)
    (hvalid : is_valid_video_file w.isfile p = true)
    (hout : get_output_path w.pathExists p cfg.outputExt = Except.ok out) :
    (∀ i o : String, run_ffmpeg w.tokenize i o none
        = Except.error (PyExc.valueError "s argument must not be None"))
    ∧ (processOne cfg w cc tf p ec).abort
        = some (PyAbort.exc (PyExc.valueError "s argument must not be None"))
    ∧ (∀ ev ∈ (processOne cfg w cc tf p ec).events, Event.isRunCmd ev = false)
    ∧ ∀ rest, (mainLoop cfg w tf cc ec (p :: rest)).abort
        = some (PyAbort.exc (PyExc.valueError "s argument must not be None")) := by
  have hstep : processOne cfg w cc tf p ec =
      { events := if cc ≠ 1 then countdown_with_sleep cfg.interval else [],
        errorCount := ec,
        abort := some (PyAbort.exc (PyExc.valueError "s argument must not be None")) } := by
    rw [processOne, if_neg (by rw [hvalid]; simp), hout]
    simp [hopts, run_ffmpeg]
  refine ⟨fun i o => rfl, by rw [hstep], ?_, ?_⟩
  · intro ev hev
    rw [hstep] at hev
    simp only at hev
    by_cases hcc : cc ≠ 1
    · rw [if_pos hcc] at hev
      exact countdown_no_runCmd cfg.interval ev hev
    · rw [if_neg hcc] at hev
      simp at hev
  · intro rest
    rw [mainLoop, hstep]

/-! ### C7 -/

/-- C7 counterexample: the claim says a progress message follows every
processed file, valid or not, so a one-file run on an invalid file
would have to print `print_progress(1, 1, 1)`; the code's `continue`
skips `print_progress` for invalid files, and the run's full output is
the single invalid-file notice. -/
theorem C7_counterexample :
    (main demoCfg demoWorldMismatch ["bad.txt"]).events
      = [Event.out "File bad.txt is not a valid video file path.\n"]
    ∧ (main demoCfg demoWorldMismatch ["bad.txt"]).errorCount = 1
    ∧ ∀ ev ∈ (main demoCfg demoWorldMismatch ["bad.txt"]).events,
        ev ≠ Event.out (progressMessage 1 1 1 ++ "\n") := by
  refine ⟨rfl, rfl, ?_⟩
  intro ev hev
  have he : (main demoCfg demoWorldMismatch ["bad.txt"]).events
      = [Event.out "File bad.txt is not a valid video file path.\n"] := rfl
  rw [he, List.mem_singleton] at hev
  rw [hev]
  intro hc
  exact absurd (Event.out.inj hc) (by decide)

/-- C7 (amended): the progress message reports (files so far − errors)
out of (total − errors) as encoded, preceded by a blank line, with a
correctly pluralized parenthetical failure count when errors exist; it
is printed after each *valid* processed file, while invalid files bump
the error count and produce no progress message; a 3-file run with 1
error ends with exactly "2 out of 2 files are encoded. (1 file
failed)". -/
theorem C7_print_progress (current total error : Int) :
    (progressMessage current total error =
      "\n" ++ toString (current - error) ++ " out of " ++ toString (total - error)
        ++ " files are encoded."
        ++ (if error ≠ 0 then
              " (" ++ toString error ++ " file" ++ (if error ≠ 1 then "s" else "")
                ++ " failed)"
            else ""))
    ∧ progressMessage 3 3 1 = "\n2 out of 2 files are encoded. (1 file failed)"
    ∧ (∀ (cfg : Config) (w : World) (cc tf ec : Nat) (p out s : String),
        is_valid_video_file w.isfile p = true →
        get_output_path w.pathExists p cfg.outputExt = Except.ok out →
        cfg.ffmpegOptions = some s →
        (metricsPhase w cfg.calcMetrics p out).2 = none →
        ∃ pre, (processOne cfg w cc tf p ec).events
            = pre ++ [Event.out (progressMessage (cc : Int) (tf : Int) (ec : Int)
                ++ "\n")]
          ∧ (processOne cfg w cc tf p ec).errorCount = ec)
    ∧ (main demoCfg demoWorldMismatch
        ["bad.txt", "/d/a.mp4", "/d/b.mp4"]).events.getLast?
        = some (Event.out "\n2 out of 2 files are encoded. (1 file failed)\n") := by
  refine ⟨rfl, rfl, ?_, rfl⟩
  intro cfg w cc tf ec p out s hvalid hout hopts hm
  rw [processOne, if_neg (by rw [hvalid]; simp), hout]
  simp only [hopts, run_ffmpeg]
  rcases hm2 : metricsPhase w cfg.calcMetrics p out with ⟨evs, oe⟩
  rw [hm2] at hm
  simp only at hm
  rw [hm]
  refine ⟨(if cc ≠ 1 then countdown_with_sleep cfg.interval else [])
    ++ [Event.runCmd (["ffmpeg", "-i", p] ++ w.tokenize s ++ [out])] ++ evs,
    ?_, rfl⟩
  simp [print_progress]

/-! ### C8 -/

/-- C8: the countdown does nothing (no output, no sleeping) for any
interval outside (0, 3600]; within range it emits, from the interval
value down to 1, one waiting line (pluralized, singular exactly at 1)
and one one-second sleep each, between blank lines; and in the main
loop the interval wait happens only before files other than the first:
the first file's iteration never sleeps (metrics off isolates the
interval wait), while later valid files' events start with the
countdown. -/
theorem C8_interval_countdown (i : Int) (cfg : Config) (w : World)
    (cc tf ec : Nat) (p : String) :
    (¬ (0 < i ∧ i ≤ 3600) → countdown_with_sleep i = [])
    ∧ (0 < i → i ≤ 3600 → countdown_with_sleep i
        = [Event.out "\n"]
          ++ ((List.range' 1 i.toNat).reverse.flatMap fun counter =>
                [Event.out (waitMessage counter), Event.sleep 1])
          ++ [Event.out "\n"])
    ∧ waitMessage 1 = "\rWaiting 1 second... "
    ∧ (∀ c : Nat, c ≠ 1 →
        waitMessage c = "\rWaiting " ++ toString c ++ " seconds... ")
    ∧ (cfg.calcMetrics = false →
        ∀ ev ∈ (processOne cfg w 1 tf p ec).events, Event.isSleep ev = false)
    ∧ (cc ≠ 1 → is_valid_video_file w.isfile p = true →
        ∃ rest, (processOne cfg w cc tf p ec).events
          = countdown_with_sleep cfg.interval ++ rest) := by
  refine ⟨?_, ?_, rfl, ?_, ?_, ?_⟩
  · intro h
    rw [countdown_with_sleep, if_neg h]
  · intro h1 h2
    rw [countdown_with_sleep, if_pos ⟨h1, h2⟩]
  · intro c hc
    rw [waitMessage, if_pos hc]
    simp [String.append_assoc]
  · intro hcalc ev hev
    by_cases hval : is_valid_video_file w.isfile p = false
    · rw [processOne, if_pos hval] at hev
      simp only [List.mem_singleton] at hev
      rw [hev]
      rfl
    · rw [processOne, if_neg hval] at hev
      rcases ho : get_output_path w.pathExists p cfg.outputExt with me | outp <;>
        rw [ho] at hev
      · simp at hev
        rw [hev]
        rfl
      · rcases hopt : cfg.ffmpegOptions with _ | s <;> rw [hopt] at hev <;>
          simp only [run_ffmpeg] at hev
        · simp at hev
        · simp only [metricsPhase, hcalc, Bool.false_and, Bool.false_eq_true,
            if_false] at hev
          simp [print_progress] at hev
          rcases hev with rfl | rfl <;> rfl
  · intro hcc hval
    rw [processOne, if_neg (by rw [hval]; simp), if_pos hcc]
    rcases ho : get_output_path w.pathExists p cfg.outputExt with me | outp
    · exact ⟨[Event.out (me.1 ++ "\n")], rfl⟩
    · rcases hopt : cfg.ffmpegOptions with _ | s
      · exact ⟨[], by simp [run_ffmpeg]⟩
      · rcases hm2 : metricsPhase w cfg.calcMetrics p outp with ⟨evs, oe⟩
        rcases oe with _ | e
        · refine ⟨[Event.runCmd (["ffmpeg", "-i", p] ++ w.tokenize s ++ [outp])]
            ++ evs ++ print_progress (cc : Int) (tf : Int) (ec : Int), ?_⟩
          simp [run_ffmpeg, hm2]
        · refine ⟨[Event.runCmd (["ffmpeg", "-i", p] ++ w.tokenize s ++ [outp])]
            ++ evs, ?_⟩
          simp [run_ffmpeg, hm2]

/-- C8 witness: a negative interval yields no wait and no output. -/
theorem C8_interval_countdown_witness : countdown_with_sleep (-5) = [] :=
  (C8_interval_countdown (-5) demoCfg demoWorldMismatch 1 1 0 "x").1 (by decide)

/-- C7 witness: a concrete valid second file of three with one earlier
error ends its iteration with the progress message and leaves the error
count unchanged. -/
theorem C7_print_progress_witness :
    ∃ pre, (processOne demoCfg demoWorldMismatch 2 3 "/d/a.mp4" 1).events
        = pre ++ [Event.out (progressMessage (2 : Int) (3 : Int) (1 : Int) ++ "\n")]
      ∧ (processOne demoCfg demoWorldMismatch 2 3 "/d/a.mp4" 1).errorCount = 1 :=
  (C7_print_progress 1 1 1).2.2.1 demoCfg demoWorldMismatch 2 3 1 "/d/a.mp4"
    "/d/output-a.mp4" "-c copy" (by decide) rfl rfl rfl

/-- A run configuration with `--ffmpeg-options` omitted. -/
def noOptsCfg : Config :=
  { ffmpegOptions := none, interval := 0, outputExt := none, calcMetrics := false }

/-- C10 witness: a run without encoder options aborts on its first
valid file with the `shlex.split` ValueError. -/
theorem C10_none_ffmpeg_options_witness :
    (processOne noOptsCfg demoWorldMismatch 1 1 "/d/clip.mp4" 0).abort
      = some (PyAbort.exc (PyExc.valueError "s argument must not be None")) :=
  (C10_none_ffmpeg_options noOptsCfg demoWorldMismatch 1 1 0 "/d/clip.mp4"
    "/d/output-clip.mp4" rfl (by decide) rfl).2.1

end FfmpegFor
